import Mathlib

/-!
Shallow embedding of the invoice-generation pipeline of `src/app.py`
(`process_data_streamlit` and `generate_invoices_streamlit`).

Cell values of the spreadsheet tables are modelled by `Cell`; numeric values
use `ℚ` with decimal rounding half-to-even (`round2`, as `Series.round`).
Rational arithmetic is carried out by `mkRat`-based helpers (`qadd`,
`qmulN`) that the kernel can evaluate; they are proved equal to the
standard `ℚ` operations.  The pipeline stages — per-file load
(`load_and_clean`), merge and currency cleaning, the exactly-3 completeness
filter, the missing-month report, the pivot to wide form, and the fee
aggregation — are embedded as executable functions over lists of records.
-/

/-- A spreadsheet cell: a number, a string, or an empty/NaN cell. -/
inductive Cell where
  | num (q : ℚ)
  | str (s : String)
  | blank
deriving DecidableEq

/-- Addition on `ℚ` in an executable normal form (equal to `+`). -/
def qadd (a b : ℚ) : ℚ :=
  mkRat (a.num * (b.den : Int) + b.num * (a.den : Int)) (a.den * b.den)

/-- Multiplication of a `ℚ` by a natural number in executable form. -/
def qmulN (a : ℚ) (k : Nat) : ℚ := mkRat (a.num * (k : Int)) a.den

theorem qadd_eq (a b : ℚ) : qadd a b = a + b := (Rat.add_def' a b).symm

theorem qmulN_eq (a : ℚ) (k : Nat) : qmulN a k = a * (k : ℚ) := by
  rw [Rat.mul_def, Rat.normalize_eq_mkRat, qmulN, Rat.num_natCast, Rat.den_natCast, Nat.mul_one]

/-- Value of a run of decimal digit characters, most significant first. -/
def digitsVal (cs : List Char) : Nat :=
  cs.foldl (fun a c => 10 * a + (c.toNat - '0'.toNat)) 0

/-- Leading sign of a numeral: `true` for `-`; the sign character is consumed. -/
def parseSign (l : List Char) : Bool × List Char :=
  match l with
  | [] => (false, [])
  | c :: t => if c = '-' then (true, t) else if c = '+' then (false, t) else (false, c :: t)

/-- `pd.to_numeric(·, errors='coerce')` on a text cell, restricted to the
plain decimal grammar `[ws] [+|-] digits [. digits] [ws]`: `some q` when the
text parses, `none` (NaN) otherwise. -/
def toNumericOpt (s : String) : Option ℚ :=
  let cs := ((s.data.dropWhile (· = ' ')).reverse.dropWhile (· = ' ')).reverse
  let sgn := parseSign cs
  match sgn.2.splitOn '.' with
  | [intPart] =>
      if intPart ≠ [] ∧ intPart.all Char.isDigit then
        some (mkRat (if sgn.1 then -(digitsVal intPart : Int) else (digitsVal intPart : Int)) 1)
      else none
  | [intPart, fracPart] =>
      if (intPart ++ fracPart) ≠ [] ∧ (intPart ++ fracPart).all Char.isDigit then
        some (mkRat
          (if sgn.1 then -(digitsVal (intPart ++ fracPart) : Int)
           else (digitsVal (intPart ++ fracPart) : Int))
          (10 ^ fracPart.length))
      else none
  | _ => none

/-- `str.replace(r'[$,]', '', regex=True)`: drop every `$` and `,`. -/
def stripCurrency (s : String) : String :=
  String.mk (s.data.filter (fun c => c ≠ '$' ∧ c ≠ ','))

/-- The Loader cleaning of a Fee / Average Daily Balance cell
(app.py lines 109–116): strip `$` and `,`, coerce to a number, and fill
parse failures with 0. -/
def cleanCell (s : String) : ℚ :=
  (toNumericOpt (stripCurrency s)).getD 0

/-- Round a rational to the nearest integer, ties to even
(the rounding used by `Series.round`), computed on `num`/`den`. -/
def roundHalfEven (q : ℚ) : ℤ :=
  let n := q.num
  let d := (q.den : Int)
  let f := Int.fdiv n d
  let r2 := 2 * (n - f * d)
  if r2 < d then f else if d < r2 then f + 1 else if f % 2 = 0 then f else f + 1

/-- `round(x, 2)`: round to two decimal places, ties to even. -/
def round2 (q : ℚ) : ℚ :=
  mkRat (roundHalfEven (qmulN q 100)) 100

example : cleanCell "$1,234.56" = mkRat 123456 100 := by decide
example : cleanCell "abc" = 0 := by decide
example : cleanCell "-$100" = mkRat (-100) 1 := by decide
example : round2 (qadd (qadd (mkRat 100 1) (mkRat 1505 10)) (mkRat 200 1)) = mkRat 4505 10 := by
  decide
example : (mkRat 123456 100 : ℚ) = 1234.56 := by norm_num [Rat.mkRat_eq_div]

/-- One raw data row of a monthly source file, after `read_excel` promoted
the identity column to the index (`Client`).  `advisor` is `none` for a NaN
cell; `adb`, `days`, `fee` are the raw cell texts. -/
structure RawRecord where
  client : String
  advisor : Option String
  clientId : String
  adb : String
  days : String
  fee : String
deriving DecidableEq

/-- One uploaded monthly file together with its caller-supplied month label. -/
structure Source where
  label : String
  rows : List RawRecord
deriving DecidableEq

/-- A loaded row: the `load_and_clean` output with the `Date` column added. -/
structure TaggedRecord where
  client : String
  advisor : String
  clientId : String
  adb : String
  days : String
  fee : String
  date : String
deriving DecidableEq

/-- `load_and_clean` (app.py lines 74–91): drop rows whose `Advisor` cell is
NaN or the stray repeated header text `"Advisor"`, and tag every surviving
row with the file's month label as its `Date`. -/
def load_and_clean (src : Source) : List TaggedRecord :=
  src.rows.filterMap fun r =>
    match r.advisor with
    | none => none
    | some a =>
        if a = "Advisor" then none
        else some ⟨r.client, a, r.clientId, r.adb, r.days, r.fee, src.label⟩

/-- A merged, cleaned row: one (client, period) observation with
currency-cleaned `Fee` and `Average Daily Balance`. -/
structure LongRow where
  client : String
  advisor : String
  clientId : String
  adb : ℚ
  days : String
  fee : ℚ
  date : String
deriving DecidableEq

/-- Currency cleaning of one merged row (app.py lines 109–116). -/
def cleanRow (r : TaggedRecord) : LongRow :=
  ⟨r.client, r.advisor, r.clientId, cleanCell r.adb, r.days, cleanCell r.fee, r.date⟩

/-- `pd.concat` of the loaded files, in the order they were supplied. -/
def mergedData (files : List Source) : List TaggedRecord :=
  (files.map load_and_clean).flatten

/-- The merged table after currency cleaning (the `all_data` DataFrame). -/
def allData (files : List Source) : List LongRow :=
  (mergedData files).map cleanRow

/-- The rows of one client (`all_data[all_data['Client'] == c]`). -/
def clientRows (data : List LongRow) (c : String) : List LongRow :=
  data.filter fun r => r.client = c

/-- `groupby('Client').transform('count')` for one client. -/
def clientCount (data : List LongRow) (c : String) : Nat :=
  (clientRows data c).length

/-- `df_exact_3 = all_data[all_data['count'] == 3]` (app.py line 125). -/
def dfExact3 (data : List LongRow) : List LongRow :=
  data.filter fun r => clientCount data r.client = 3

/-- `df_others = all_data[all_data['count'] != 3]` (app.py line 130). -/
def dfOthers (data : List LongRow) : List LongRow :=
  data.filter fun r => clientCount data r.client ≠ 3

/-- Records of one client loaded from one source file. -/
def countClientIn (s : Source) (c : String) : Nat :=
  ((load_and_clean s).filter fun t => t.client = c).length

/-- How many of the period sources hold at least one record of client `c`. -/
def sourcesWith (files : List Source) (c : String) : Nat :=
  (files.filter fun s => countClientIn s c ≠ 0).length

/-- `expected_months_set` (app.py line 134): the labels of the configured
files, skipping falsy (empty) labels; a set, modelled as a deduplicated list. -/
def expectedMonths (files : List Source) : List String :=
  ((files.filter fun s => s.label ≠ "").map (·.label)).dedup

/-- `present_months` for one excluded client (app.py line 144): the set of
`Date` labels among that client's rows of `df_others`. -/
def presentMonths (others : List LongRow) (c : String) : List String :=
  ((clientRows others c).map (·.date)).dedup

/-- `missing_months = expected_months_set - present_months` (app.py
line 147), the per-client missing-periods diagnostic. -/
def missingMonths (files : List Source) (others : List LongRow) (c : String) : List String :=
  (expectedMonths files).filter fun l => l ∉ presentMonths others c

/-- `groupby('Client').cumcount() + 1` starting from given per-client
occurrence counts: each row is paired with its 1-based occurrence index
among the rows of the same client, in list order. -/
def cumcountFrom (seen : String → Nat) : List LongRow → List (LongRow × Nat)
  | [] => []
  | r :: rs =>
      (r, seen r.client + 1) ::
        cumcountFrom (fun c => if c = r.client then seen c + 1 else seen c) rs

/-- `df_exact_3['period_id']` (app.py line 167). -/
def withPeriodId (data : List LongRow) : List (LongRow × Nat) :=
  cumcountFrom (fun _ => 0) data

/-- The pivot index `['Client', 'Advisor', 'Unique Client ID']`. -/
structure PivotKey where
  client : String
  advisor : String
  clientId : String
deriving DecidableEq

/-- The pivot-index value of a row. -/
def rowKey (r : LongRow) : PivotKey := ⟨r.client, r.advisor, r.clientId⟩

/-- The distinct pivot-index values of the admitted rows: one wide row each. -/
def pivotKeys (data : List LongRow) : List PivotKey :=
  (data.map rowKey).dedup

/-- The cell of the pivot at index `k` and column `pid`: the row carrying
that key and period id, if any (`NaN` otherwise). -/
def pivotCell (tagged : List (LongRow × Nat)) (k : PivotKey) (pid : Nat) : Option LongRow :=
  ((tagged.filter fun p => rowKey p.1 = k ∧ p.2 = pid).map (·.1)).head?

/-- One row of `df_wide`: flattened per-period column groups
(`Average Daily Balance1..3`, `Days in Period1..3`, `Fee1..3`, `Date1..3`),
plus `Total` and `Eval` once the Fee Aggregator has run. -/
structure WideRow where
  client : String
  advisor : String
  clientId : String
  adb1 : Cell
  adb2 : Cell
  adb3 : Cell
  days1 : Cell
  days2 : Cell
  days3 : Cell
  fee1 : Cell
  fee2 : Cell
  fee3 : Cell
  date1 : Cell
  date2 : Cell
  date3 : Cell
  total : Cell
  evalPeriod : Cell
deriving DecidableEq

/-- A numeric pivot cell, `NaN` (blank) when the (key, period) is absent. -/
def numCellOf (o : Option LongRow) (f : LongRow → ℚ) : Cell :=
  match o with
  | some r => .num (f r)
  | none => .blank

/-- A text pivot cell, `NaN` (blank) when the (key, period) is absent. -/
def strCellOf (o : Option LongRow) (f : LongRow → String) : Cell :=
  match o with
  | some r => .str (f r)
  | none => .blank

/-- The wide row of one pivot-index value (app.py lines 176–194). -/
def mkWideRow (tagged : List (LongRow × Nat)) (k : PivotKey) : WideRow where
  client := k.client
  advisor := k.advisor
  clientId := k.clientId
  adb1 := numCellOf (pivotCell tagged k 1) (·.adb)
  adb2 := numCellOf (pivotCell tagged k 2) (·.adb)
  adb3 := numCellOf (pivotCell tagged k 3) (·.adb)
  days1 := strCellOf (pivotCell tagged k 1) (·.days)
  days2 := strCellOf (pivotCell tagged k 2) (·.days)
  days3 := strCellOf (pivotCell tagged k 3) (·.days)
  fee1 := numCellOf (pivotCell tagged k 1) (·.fee)
  fee2 := numCellOf (pivotCell tagged k 2) (·.fee)
  fee3 := numCellOf (pivotCell tagged k 3) (·.fee)
  date1 := strCellOf (pivotCell tagged k 1) (·.date)
  date2 := strCellOf (pivotCell tagged k 2) (·.date)
  date3 := strCellOf (pivotCell tagged k 3) (·.date)
  total := .blank
  evalPeriod := .blank

/-- The Reshaper: pivot the admitted rows to wide form. -/
def reshape (data : List LongRow) : List WideRow :=
  (pivotKeys (dfExact3 data)).map (mkWideRow (withPeriodId (dfExact3 data)))

/-- `pd.to_numeric(·, errors='coerce').fillna(0)` on a wide-table cell
(app.py lines 197–199): numbers pass through, text re-parses, NaN and
parse failures become 0. -/
def toNumericOr0 : Cell → ℚ
  | .num q => q
  | .str s => (toNumericOpt s).getD 0
  | .blank => 0

/-- The Fee Aggregator on one wide row (app.py lines 196–205): re-coerce the
three fee columns, compute `Total = round(Fee1 + Fee2 + Fee3, 2)` and attach
the evaluation-period label. -/
def feeAggregate (evalLabel : String) (w : WideRow) : WideRow :=
  let f1 := toNumericOr0 w.fee1
  let f2 := toNumericOr0 w.fee2
  let f3 := toNumericOr0 w.fee3
  { w with
    fee1 := .num f1
    fee2 := .num f2
    fee3 := .num f3
    total := .num (round2 (qadd (qadd f1 f2) f3))
    evalPeriod := .str evalLabel }

/-- `process_data_streamlit`: the whole pipeline from the three period
sources and the evaluation-period label to the per-client invoice table. -/
def process_data (files : List Source) (evalLabel : String) : List WideRow :=
  (reshape (allData files)).map (feeAggregate evalLabel)

/-- `DATA_TEMPLATE_MAPPING` (app.py lines 57–65): the 21 template targets,
each `(slot_index, cell_range, is_merged_range)`. -/
def DATA_TEMPLATE_MAPPING : List (Nat × String × Bool) :=
  [(1, "D12:E12", true), (2, "D14:E14", true), (3, "A7:F7", true),
   (4, "D11:E11", true), (5, "D13:E13", true), (6, "A5:F5", true),
   (7, "A8:F8", true), (8, "A16:F16", true),
   (9, "B18:B18", false), (10, "C18:C18", false), (11, "D18:D18", false), (12, "E18:E18", false),
   (13, "B19:B19", false), (14, "C19:C19", false), (15, "D19:D19", false), (16, "E19:E19", false),
   (17, "B20:B20", false), (18, "C20:C20", false), (19, "D20:D20", false), (20, "E20:E20", false),
   (21, "E21:E21", false)]

/-- The numeric value of a rendered cell (`Total` and the fees are numeric
in every pipeline output row; 0 is the `row.get` default). -/
def cellNumVal : Cell → ℚ
  | .num q => q
  | .str _ => 0
  | .blank => 0

/-- The text value of a rendered cell (`Eval` is a string in every pipeline
output row; `""` is the `row.get` default). -/
def cellTextVal : Cell → String
  | .str s => s
  | _ => ""

/-- Digits of a natural number with a `,` inserted before every further
group of three, working from the least significant digit. -/
def commaRev : List Char → List Char
  | a :: b :: c :: d :: rest => a :: b :: c :: ',' :: commaRev (d :: rest)
  | l => l

/-- The integer part of Python's `{n:,}`: decimal digits grouped by
thousands separators. -/
def groupDigits (n : Nat) : String :=
  String.mk ((commaRev (Nat.toDigits 10 n).reverse).reverse)

/-- A two-digit zero-padded decimal numeral of `n % 100`. -/
def twoDigits (n : Nat) : String :=
  String.mk [Char.ofNat ('0'.toNat + n / 10 % 10), Char.ofNat ('0'.toNat + n % 10)]

/-- Python's `f"${x:,.2f}"`: a dollar sign, then the value rounded to two
decimals with a thousands-separated integer part. -/
def formatCurrency (q : ℚ) : String :=
  let cents := roundHalfEven (qmulN q 100)
  let sgn := if cents < 0 then "-" else ""
  let n := cents.natAbs
  "$" ++ sgn ++ groupDigits (n / 100) ++ "." ++ twoDigits (n % 100)

/-- `template_data` (app.py lines 249–267): the ordered 21-element value
list written to the template slots for one invoice record. -/
def template_data (w : WideRow) : List Cell :=
  [.str (cellTextVal w.evalPeriod),
   .str (formatCurrency (cellNumVal w.total)),
   .str ("Client Name(s): " ++ w.client),
   .str (w.clientId.take 10),
   .str "0.25%",
   .str ("Billing Cycle: " ++ cellTextVal w.evalPeriod),
   .str "Address: ????",
   .str ("Fee Calculation " ++ w.clientId.take 10),
   w.date1, w.adb1, w.days1, .str (formatCurrency (cellNumVal w.fee1)),
   w.date2, w.adb2, w.days2, .str (formatCurrency (cellNumVal w.fee2)),
   w.date3, w.adb3, w.days3, .str (formatCurrency (cellNumVal w.fee3)),
   .str (formatCurrency (cellNumVal w.total))]

/-- `safe_client_name` (app.py line 270):
`str(Client).replace("/", "_").replace("\\", "_")`. -/
def safe_client_name (s : String) : String :=
  String.mk (s.data.map fun c => if c = '/' then '_' else if c = '\\' then '_' else c)

/-- The output document identifier `f"CF_invoice_{safe_client_name}.xlsx"`
(app.py line 271). -/
def outputDocName (client : String) : String :=
  "CF_invoice_" ++ safe_client_name client ++ ".xlsx"

example : formatCurrency (mkRat 4505 10) = "$450.50" := by decide
example : formatCurrency (mkRat 123456 100) = "$1,234.56" := by decide
example : formatCurrency (mkRat 1234567891 100) = "$12,345,678.91" := by decide
example : formatCurrency (mkRat (-5) 1) = "$-5.00" := by decide
example : outputDocName "a/b\\c" = "CF_invoice_a_b_c.xlsx" := by decide

/-- The cleaned rows contributed by one source file to `all_data`. -/
def loadedRows (s : Source) : List LongRow :=
  (load_and_clean s).map cleanRow

/-- The wide row the Reshaper produces for one pivot key of a merged table. -/
def wideOf (data : List LongRow) (k : PivotKey) : WideRow :=
  mkWideRow (withPeriodId (dfExact3 data)) k

theorem reshape_eq_map (data : List LongRow) :
    reshape data = (pivotKeys (dfExact3 data)).map (wideOf data) := rfl

/-- Rows paired with consecutive 1-based indices starting after `k`. -/
def tagIdx (k : Nat) : List LongRow → List (LongRow × Nat)
  | [] => []
  | r :: rs => (r, k + 1) :: tagIdx (k + 1) rs

theorem mem_clientRows {r : LongRow} {data : List LongRow} {c : String} :
    r ∈ clientRows data c ↔ r ∈ data ∧ r.client = c := by
  simp [clientRows, List.mem_filter]

theorem clientRows_append (l1 l2 : List LongRow) (c : String) :
    clientRows (l1 ++ l2) c = clientRows l1 c ++ clientRows l2 c := by
  simp [clientRows]

theorem allData_triple (s1 s2 s3 : Source) :
    allData [s1, s2, s3] = loadedRows s1 ++ (loadedRows s2 ++ loadedRows s3) := by
  simp [allData, mergedData, loadedRows]

/-- Per-source record counts agree before and after currency cleaning. -/
theorem length_clientRows_loadedRows (s : Source) (c : String) :
    (clientRows (loadedRows s) c).length = countClientIn s c := by
  simp only [clientRows, loadedRows, countClientIn, List.filter_map, List.length_map]
  rfl

theorem cumcountFrom_filter (c : String) (data : List LongRow) : ∀ seen : String → Nat,
    (cumcountFrom seen data).filter (fun p => p.1.client = c)
      = tagIdx (seen c) (clientRows data c) := by
  induction data with
  | nil => intro seen; rfl
  | cons r rs ih =>
    intro seen
    by_cases h : r.client = c
    · simp [cumcountFrom, clientRows, List.filter_cons, h, ih, tagIdx]
    · simp only [cumcountFrom, clientRows, List.filter_cons, h, ih]
      rw [if_neg (fun hcc : c = r.client => h hcc.symm)]
      simp [h, clientRows]

theorem withPeriodId_filter (c : String) (data : List LongRow) :
    (withPeriodId data).filter (fun p => p.1.client = c) = tagIdx 0 (clientRows data c) :=
  cumcountFrom_filter c data _

theorem clientRows_dfExact3 (data : List LongRow) (c : String) (h : clientCount data c = 3) :
    clientRows (dfExact3 data) c = clientRows data c := by
  unfold clientRows dfExact3
  rw [List.filter_filter]
  apply List.filter_congr
  intro r _
  by_cases hc : r.client = c
  · simp [hc, h]
  · simp [hc]

theorem clientRows_dfOthers (data : List LongRow) (c : String) (h : clientCount data c ≠ 3) :
    clientRows (dfOthers data) c = clientRows data c := by
  unfold clientRows dfOthers
  rw [List.filter_filter]
  apply List.filter_congr
  intro r _
  by_cases hc : r.client = c
  · simp [hc, h]
  · simp [hc]

theorem pivotCell_eq (data : List LongRow) (c : String) (k : PivotKey)
    (hkc : k.client = c) (pid : Nat) :
    pivotCell (withPeriodId data) k pid
      = (((tagIdx 0 (clientRows data c)).filter
            fun p => rowKey p.1 = k ∧ p.2 = pid).map (·.1)).head? := by
  unfold pivotCell
  have h1 : ∀ p : LongRow × Nat, p ∈ withPeriodId data →
      (decide (rowKey p.1 = k ∧ p.2 = pid))
        = (decide (rowKey p.1 = k ∧ p.2 = pid) && decide (p.1.client = c)) := by
    intro p _
    by_cases hq : rowKey p.1 = k ∧ p.2 = pid
    · have hpc : p.1.client = c := by
        have : (rowKey p.1).client = k.client := by rw [hq.1]
        rw [← hkc, ← this]; rfl
      simp [hq, hpc]
    · simp [hq]
  rw [List.filter_congr h1, ← List.filter_filter, withPeriodId_filter]

theorem pivotCell_three (data : List LongRow) (c : String) (r1 r2 r3 : LongRow)
    (h : clientRows data c = [r1, r2, r3])
    (hk2 : rowKey r2 = rowKey r1) (hk3 : rowKey r3 = rowKey r1) :
    pivotCell (withPeriodId data) (rowKey r1) 1 = some r1
    ∧ pivotCell (withPeriodId data) (rowKey r1) 2 = some r2
    ∧ pivotCell (withPeriodId data) (rowKey r1) 3 = some r3 := by
  have hr1 : r1 ∈ clientRows data c := by rw [h]; simp
  have hkc : (rowKey r1).client = c := (mem_clientRows.mp hr1).2
  refine ⟨?_, ?_, ?_⟩ <;>
  · rw [pivotCell_eq data c (rowKey r1) hkc, h]
    simp [tagIdx, List.filter_cons, hk2, hk3]

theorem eq_singleton_of_nodup {α : Type} {l : List α} {a : α}
    (hnd : l.Nodup) (ha : a ∈ l) (hall : ∀ x ∈ l, x = a) : l = [a] := by
  cases l with
  | nil => cases ha
  | cons b t =>
    have hb : b = a := hall b (by simp)
    subst hb
    cases t with
    | nil => rfl
    | cons b2 t2 =>
      have hb2 : b2 = b := hall b2 (by simp)
      subst hb2
      simp at hnd

theorem two_le_length_of_two_mem {α : Type} {l : List α} {a b : α}
    (ha : a ∈ l) (hb : b ∈ l) (hne : a ≠ b) : 2 ≤ l.length := by
  cases l with
  | nil => cases ha
  | cons x t =>
    cases t with
    | nil =>
      simp only [List.mem_singleton] at ha hb
      exact absurd (ha.trans hb.symm) hne
    | cons y t2 => simp

theorem date_of_mem_loadedRows (s : Source) (r : LongRow) (hr : r ∈ loadedRows s) :
    r.date = s.label := by
  rcases List.mem_map.mp hr with ⟨t, ht, rfl⟩
  rcases List.mem_filterMap.mp ht with ⟨a, _, ha⟩
  cases hadv : a.advisor with
  | none => rw [hadv] at ha; simp at ha
  | some adv =>
    rw [hadv] at ha
    by_cases h : adv = "Advisor"
    · simp [h] at ha
    · simp only [h, if_false, Option.some.injEq] at ha
      rw [← ha]
      rfl

theorem mkRat_natCast_nonneg (m d : Nat) : 0 ≤ mkRat (m : Int) d := by
  rw [Rat.mkRat_eq_div]
  apply div_nonneg
  · exact_mod_cast Int.ofNat_nonneg m
  · exact_mod_cast Nat.zero_le d

theorem parseSign_fst {l : List Char} (hm : '-' ∉ l) : (parseSign l).1 = false := by
  cases l with
  | nil => rfl
  | cons c t =>
    have hc : c ≠ '-' := fun h => hm (h ▸ List.mem_cons_self c t)
    simp only [parseSign, hc, if_false]
    split <;> rfl

theorem toNumericOpt_nonneg {s : String} (hm : '-' ∉ s.data) {q : ℚ}
    (h : toNumericOpt s = some q) : 0 ≤ q := by
  unfold toNumericOpt at h
  have hm2 : '-' ∉ ((s.data.dropWhile (· = ' ')).reverse.dropWhile (· = ' ')).reverse := by
    intro hmem
    apply hm
    have h1 := (List.mem_reverse).mp hmem
    have h2 := (List.dropWhile_sublist (· = ' ')).mem h1
    have h3 := (List.mem_reverse).mp h2
    exact (List.dropWhile_sublist (· = ' ')).mem h3
  dsimp only at h
  rw [parseSign_fst hm2] at h
  simp only [Bool.false_eq_true, if_false] at h
  split at h
  · split at h
    · rw [Option.some.injEq] at h
      rw [← h]
      exact mkRat_natCast_nonneg _ _
    · cases h
  · split at h
    · rw [Option.some.injEq] at h
      rw [← h]
      exact mkRat_natCast_nonneg _ _
    · cases h
  · cases h

theorem cleanCell_nonneg {s : String} (hm : '-' ∉ s.data) : 0 ≤ cleanCell s := by
  unfold cleanCell
  have hm2 : '-' ∉ (stripCurrency s).data := by
    intro hmem
    apply hm
    unfold stripCurrency at hmem
    exact (List.filter_sublist _).mem hmem
  cases hopt : toNumericOpt (stripCurrency s) with
  | none => simp
  | some q => simpa using toNumericOpt_nonneg hm2 hopt

/-- Sample period sources for concrete checks: client `"Acme Corp"` appears
once per file (behind a distractor row in the first file), `"Beta LLC"` only
in the first file. -/
def sampleS1 : Source :=
  ⟨"Jul 2025",
   [⟨"Beta LLC", some "Bob", "B002", "$500.00", "31", "$50.00"⟩,
    ⟨"Acme Corp", some "Alice", "A001", "$1,000.00", "31", "$100.00"⟩]⟩

/-- Second sample period source. -/
def sampleS2 : Source :=
  ⟨"Aug 2025", [⟨"Acme Corp", some "Alice", "A001", "$1,100.00", "31", "150.5"⟩]⟩

/-- Third sample period source. -/
def sampleS3 : Source :=
  ⟨"Sep 2025", [⟨"Acme Corp", some "Alice", "A001", "$1,200.00", "30", "$200"⟩]⟩

/-- The one invoice record the pipeline produces from the sample sources. -/
def sampleWide : WideRow :=
  { client := "Acme Corp", advisor := "Alice", clientId := "A001"
    adb1 := .num (mkRat 1000 1), adb2 := .num (mkRat 1100 1), adb3 := .num (mkRat 1200 1)
    days1 := .str "31", days2 := .str "31", days3 := .str "30"
    fee1 := .num (mkRat 100 1), fee2 := .num (mkRat 1505 10), fee3 := .num (mkRat 200 1)
    date1 := .str "Jul 2025", date2 := .str "Aug 2025", date3 := .str "Sep 2025"
    total := .num (mkRat 4505 10), evalPeriod := .str "07/01/2025 - 09/30/2025" }

/-- C2: cleaning strips `$` and `,` everywhere, `"$1,234.56"` cleans to the
exact decimal 1234.56, any value that still fails numeric coercion cleans
to 0 rather than raising, and every Fee / Average Daily Balance value of the
merged table is the cleaning of the corresponding raw cell. -/
theorem C2_currency_cleaning :
    (∀ s : String, '$' ∉ (stripCurrency s).data ∧ ',' ∉ (stripCurrency s).data)
    ∧ cleanCell "$1,234.56" = 1234.56
    ∧ (∀ s : String, toNumericOpt (stripCurrency s) = none → cleanCell s = 0)
    ∧ (∀ (files : List Source) (r : LongRow), r ∈ allData files →
        ∃ t, t ∈ mergedData files ∧ r.fee = cleanCell t.fee ∧ r.adb = cleanCell t.adb) := by
  refine ⟨?_, ?_, ?_, ?_⟩
  · intro s
    constructor <;>
    · intro h
      have := (List.mem_filter.mp h).2
      simp at this
  · have h1 : cleanCell "$1,234.56" = mkRat 123456 100 := by decide
    rw [h1]
    norm_num [Rat.mkRat_eq_div]
  · intro s h
    unfold cleanCell
    rw [h]
    rfl
  · intro files r hr
    rcases List.mem_map.mp hr with ⟨t, ht, rfl⟩
    exact ⟨t, ht, rfl, rfl⟩

/-- C7: the Fee Aggregator is idempotent: re-running it on its own output is
a no-op, on a single wide row and on the whole table. -/
theorem C7_fee_aggregator_idempotent :
    (∀ (lbl : String) (w : WideRow),
        feeAggregate lbl (feeAggregate lbl w) = feeAggregate lbl w)
    ∧ (∀ (lbl : String) (tbl : List WideRow),
        ((tbl.map (feeAggregate lbl)).map (feeAggregate lbl)) = tbl.map (feeAggregate lbl)) := by
  have h : ∀ (lbl : String) (w : WideRow),
      feeAggregate lbl (feeAggregate lbl w) = feeAggregate lbl w := by
    intro lbl w
    simp [feeAggregate, toNumericOr0]
  refine ⟨h, fun lbl tbl => ?_⟩
  rw [List.map_map]
  exact List.map_congr_left (fun w _ => h lbl w)

/-- C8: the renderer builds its 21-element value list in exactly the
specified order, the list is as long as `DATA_TEMPLATE_MAPPING`, and for a
record with `total = 450.50` the total-footer slot (slot 21) holds the
string `"$450.50"`; the thousands separator appears above 999.99. -/
theorem C8_renderer_value_list :
    (∀ w : WideRow, template_data w =
      [.str (cellTextVal w.evalPeriod),
       .str (formatCurrency (cellNumVal w.total)),
       .str ("Client Name(s): " ++ w.client),
       .str (w.clientId.take 10),
       .str "0.25%",
       .str ("Billing Cycle: " ++ cellTextVal w.evalPeriod),
       .str "Address: ????",
       .str ("Fee Calculation " ++ w.clientId.take 10),
       w.date1, w.adb1, w.days1, .str (formatCurrency (cellNumVal w.fee1)),
       w.date2, w.adb2, w.days2, .str (formatCurrency (cellNumVal w.fee2)),
       w.date3, w.adb3, w.days3, .str (formatCurrency (cellNumVal w.fee3)),
       .str (formatCurrency (cellNumVal w.total))])
    ∧ (∀ w : WideRow, (template_data w).length = DATA_TEMPLATE_MAPPING.length)
    ∧ DATA_TEMPLATE_MAPPING.length = 21
    ∧ (mkRat 4505 10 : ℚ) = 450.50
    ∧ sampleWide.total = Cell.num (mkRat 4505 10)
    ∧ (template_data sampleWide)[20]? = some (.str "$450.50")
    ∧ formatCurrency (mkRat 123456 100) = "$1,234.56" := by
  refine ⟨fun w => rfl, fun w => rfl, rfl, ?_, rfl, by decide, by decide⟩
  norm_num [Rat.mkRat_eq_div]

/-- C9: the derived output document identifier replaces every `/` and `\`
of the client name, so it contains neither path separator. -/
theorem C9_safe_output_name (s : String) :
    '/' ∉ (safe_client_name s).data ∧ '\\' ∉ (safe_client_name s).data
    ∧ '/' ∉ (outputDocName s).data ∧ '\\' ∉ (outputDocName s).data := by
  have hsafe : ∀ c, c ∈ (safe_client_name s).data → c ≠ '/' ∧ c ≠ '\\' := by
    intro c hc
    unfold safe_client_name at hc
    rcases List.mem_map.mp hc with ⟨a, _, rfl⟩
    by_cases h1 : a = '/'
    · simp [h1]
    · by_cases h2 : a = '\\' <;> simp [h1, h2]
  have h1 : '/' ∉ (safe_client_name s).data := fun h => (hsafe _ h).1 rfl
  have h2 : '\\' ∉ (safe_client_name s).data := fun h => (hsafe _ h).2 rfl
  refine ⟨h1, h2, ?_, ?_⟩ <;>
  · intro h
    rw [outputDocName, String.data_append, String.data_append] at h
    rcases List.mem_append.mp h with h | h
    · rcases List.mem_append.mp h with h | h
      · exact absurd h (by decide)
      · first
        | exact h1 h
        | exact h2 h
    · exact absurd h (by decide)

/-- C3: for every row of the pipeline output, the computed total is
`round(fee1 + fee2 + fee3, 2)` of the (re-coerced) fee columns; an absent
fee cell coerces to 0. -/
theorem C3_total_formula (files : List Source) (lbl : String) (w : WideRow)
    (hw : w ∈ process_data files lbl) :
    w.total = Cell.num (round2 (toNumericOr0 w.fee1 + toNumericOr0 w.fee2 + toNumericOr0 w.fee3))
    ∧ toNumericOr0 Cell.blank = 0 := by
  rcases List.mem_map.mp hw with ⟨v, _, rfl⟩
  refine ⟨?_, rfl⟩
  simp [feeAggregate, toNumericOr0, qadd_eq]

theorem C3_total_formula_witness :
    sampleWide ∈ process_data [sampleS1, sampleS2, sampleS3] "07/01/2025 - 09/30/2025"
    ∧ (sampleWide.total
        = Cell.num (round2 (toNumericOr0 sampleWide.fee1 + toNumericOr0 sampleWide.fee2
            + toNumericOr0 sampleWide.fee3))
      ∧ toNumericOr0 Cell.blank = 0) := by
  refine ⟨by decide,
    C3_total_formula [sampleS1, sampleS2, sampleS3] "07/01/2025 - 09/30/2025" sampleWide
      (by decide)⟩

/-- Period sources with a skewed distribution: client `"X Corp"` has two
records in the first source, one in the second, none in the third. -/
def skewS1 : Source :=
  ⟨"Jul 2025",
   [⟨"X Corp", some "Alice", "X001", "$100", "31", "$10"⟩,
    ⟨"X Corp", some "Alice", "X001", "$200", "31", "$20"⟩]⟩

/-- Second skewed source. -/
def skewS2 : Source := ⟨"Aug 2025", [⟨"X Corp", some "Alice", "X001", "$300", "31", "$30"⟩]⟩

/-- Third skewed source: no record of `"X Corp"`. -/
def skewS3 : Source := ⟨"Sep 2025", []⟩

/-- C1 (as stated, refuted): admission is NOT equivalent to having exactly
one record in each period source — a 2 + 1 + 0 distribution also reaches
the admission count of 3. -/
theorem C1_counterexample :
    ¬ (∀ (s1 s2 s3 : Source) (c : String),
        clientCount (allData [s1, s2, s3]) c = 3 ↔
          (countClientIn s1 c = 1 ∧ countClientIn s2 c = 1 ∧ countClientIn s3 c = 1)) := by
  intro hclaim
  have h := (hclaim skewS1 skewS2 skewS3 "X Corp").mp (by decide)
  exact absurd h.1 (by decide)

/-- C1 (amended): a client is admitted iff its total record count across
the three loaded sources is exactly 3, whatever the distribution; the
admitted rows are exactly the rows of clients with merged count 3. -/
theorem C1_admission_by_total_count (s1 s2 s3 : Source) (c : String) :
    clientCount (allData [s1, s2, s3]) c
      = countClientIn s1 c + countClientIn s2 c + countClientIn s3 c
    ∧ (∀ r ∈ allData [s1, s2, s3],
        (r ∈ dfExact3 (allData [s1, s2, s3])
          ↔ clientCount (allData [s1, s2, s3]) r.client = 3)) := by
  constructor
  · unfold clientCount
    rw [allData_triple, clientRows_append, clientRows_append]
    simp only [List.length_append]
    rw [length_clientRows_loadedRows, length_clientRows_loadedRows,
      length_clientRows_loadedRows]
    omega
  · intro r hr
    unfold dfExact3
    rw [List.mem_filter]
    simp [hr]

/-- A source whose single row has a negative, currency-formatted fee. -/
def negSrc : Source :=
  ⟨"Jul 2025", [⟨"Neg Corp", some "Alice", "N001", "$100", "31", "-$100"⟩]⟩

/-- C6 (as stated, refuted): cleaned fees are NOT always non-negative —
the raw fee `"-$100"` cleans to the negative value −100. -/
theorem C6_counterexample :
    ¬ (∀ (files : List Source) (r : LongRow), r ∈ allData files →
        0 ≤ r.fee ∧ 0 ≤ r.adb) := by
  intro hclaim
  have h := hclaim [negSrc]
      ⟨"Neg Corp", "Alice", "N001", mkRat 100 1, "31", mkRat (-100) 1, "Jul 2025"⟩ (by decide)
  have h2 : ¬ ((0 : ℚ) ≤ mkRat (-100) 1) := by norm_num [Rat.mkRat_eq_div]
  exact h2 h.1

/-- C6 (amended): after cleaning, every fee and balance is the exact parse
of the stripped raw cell (0 when unparsable), and is non-negative whenever
the raw cell carries no minus sign; negative raw values stay negative. -/
theorem C6_cleaned_values (files : List Source) (r : LongRow) (hr : r ∈ allData files) :
    ∃ t, t ∈ mergedData files
      ∧ r.fee = cleanCell t.fee ∧ r.adb = cleanCell t.adb
      ∧ ('-' ∉ t.fee.data → 0 ≤ r.fee) ∧ ('-' ∉ t.adb.data → 0 ≤ r.adb) := by
  rcases List.mem_map.mp hr with ⟨t, ht, rfl⟩
  exact ⟨t, ht, rfl, rfl, fun h => cleanCell_nonneg h, fun h => cleanCell_nonneg h⟩

theorem C6_cleaned_values_witness :
    ∃ t, t ∈ mergedData [sampleS2]
      ∧ (⟨"Acme Corp", "Alice", "A001", mkRat 1100 1, "31", mkRat 1505 10,
           "Aug 2025"⟩ : LongRow).fee = cleanCell t.fee
      ∧ (⟨"Acme Corp", "Alice", "A001", mkRat 1100 1, "31", mkRat 1505 10,
           "Aug 2025"⟩ : LongRow).adb = cleanCell t.adb
      ∧ ('-' ∉ t.fee.data →
          0 ≤ (⟨"Acme Corp", "Alice", "A001", mkRat 1100 1, "31", mkRat 1505 10,
                 "Aug 2025"⟩ : LongRow).fee)
      ∧ ('-' ∉ t.adb.data →
          0 ≤ (⟨"Acme Corp", "Alice", "A001", mkRat 1100 1, "31", mkRat 1505 10,
                 "Aug 2025"⟩ : LongRow).adb) :=
  C6_cleaned_values [sampleS2] _ (by decide)

/-- C5 (as stated, refuted): a client present in exactly 2 of the 3 period
sources is NOT necessarily reported as excluded — with a 2 + 1 record
distribution the merged count is 3 and the client is admitted instead. -/
theorem C5_counterexample :
    ¬ (∀ (s1 s2 s3 : Source) (c : String),
        sourcesWith [s1, s2, s3] c = 2 →
          clientRows (dfOthers (allData [s1, s2, s3])) c ≠ []) := by
  intro hclaim
  exact hclaim skewS1 skewS2 skewS3 "X Corp" (by decide) (by decide)

/-- C5 (amended): for every excluded client the missing-periods diagnostic
is the set difference between the configured expected labels and the labels
present for that client; a client with one record in each of exactly two
sources (and none in the third) has merged count 2, is excluded, and is
reported with exactly the one missing label. -/
theorem C5_missing_period_report (s1 s2 s3 : Source) (c : String) (r1 r2 : LongRow)
    (h1 : clientRows (loadedRows s1) c = [r1])
    (h2 : clientRows (loadedRows s2) c = [r2])
    (h3 : clientRows (loadedRows s3) c = [])
    (hd12 : s1.label ≠ s2.label) (hd13 : s1.label ≠ s3.label) (hd23 : s2.label ≠ s3.label)
    (hn1 : s1.label ≠ "") (hn2 : s2.label ≠ "") (hn3 : s3.label ≠ "") :
    clientCount (allData [s1, s2, s3]) c = 2
    ∧ clientRows (dfOthers (allData [s1, s2, s3])) c = [r1, r2]
    ∧ missingMonths [s1, s2, s3] (dfOthers (allData [s1, s2, s3])) c = [s3.label]
    ∧ (∀ l : String,
        l ∈ missingMonths [s1, s2, s3] (dfOthers (allData [s1, s2, s3])) c
          ↔ (l ∈ expectedMonths [s1, s2, s3]
              ∧ l ∉ presentMonths (dfOthers (allData [s1, s2, s3])) c)) := by
  have hall : clientRows (allData [s1, s2, s3]) c = [r1, r2] := by
    rw [allData_triple, clientRows_append, clientRows_append, h1, h2, h3]
    rfl
  have hcount : clientCount (allData [s1, s2, s3]) c = 2 := by
    unfold clientCount
    rw [hall]
    rfl
  have hothers : clientRows (dfOthers (allData [s1, s2, s3])) c = [r1, r2] := by
    rw [clientRows_dfOthers _ _ (by rw [hcount]; decide), hall]
  have hr1 : r1 ∈ loadedRows s1 := by
    have hm : r1 ∈ clientRows (loadedRows s1) c := by rw [h1]; simp
    exact (mem_clientRows.mp hm).1
  have hr2 : r2 ∈ loadedRows s2 := by
    have hm : r2 ∈ clientRows (loadedRows s2) c := by rw [h2]; simp
    exact (mem_clientRows.mp hm).1
  have hdate1 : r1.date = s1.label := date_of_mem_loadedRows _ _ hr1
  have hdate2 : r2.date = s2.label := date_of_mem_loadedRows _ _ hr2
  have hpresent : presentMonths (dfOthers (allData [s1, s2, s3])) c
      = [s1.label, s2.label] := by
    unfold presentMonths
    rw [hothers]
    simp only [List.map_cons, List.map_nil, hdate1, hdate2]
    exact List.Nodup.dedup (by simp [hd12])
  have hexp : expectedMonths [s1, s2, s3] = [s1.label, s2.label, s3.label] := by
    unfold expectedMonths
    simp only [List.filter_cons, hn1, hn2, hn3, decide_not]
    rw [if_pos (by simp [hn1]), if_pos (by simp [hn2]), if_pos (by simp [hn3])]
    simp only [List.filter_nil, List.map_cons, List.map_nil]
    exact List.Nodup.dedup (by simp [hd12, hd13, hd23])
  have hmiss : missingMonths [s1, s2, s3] (dfOthers (allData [s1, s2, s3])) c
      = [s3.label] := by
    unfold missingMonths
    rw [hexp, hpresent]
    simp only [List.filter_cons, List.filter_nil, List.mem_cons, List.not_mem_nil]
    simp
    exact ⟨fun h => hd13 h.symm, fun h => hd23 h.symm⟩
  refine ⟨hcount, hothers, hmiss, fun l => ?_⟩
  unfold missingMonths
  simp [List.mem_filter]

/-- Third sample source without the client `"Acme Corp"`. -/
def sampleS3NoAcme : Source :=
  ⟨"Sep 2025", [⟨"Gamma Inc", some "Greg", "G003", "$10.00", "30", "$1.00"⟩]⟩

theorem C5_missing_period_report_witness :
    clientCount (allData [sampleS1, sampleS2, sampleS3NoAcme]) "Acme Corp" = 2
    ∧ clientRows (dfOthers (allData [sampleS1, sampleS2, sampleS3NoAcme])) "Acme Corp"
        = [⟨"Acme Corp", "Alice", "A001", mkRat 1000 1, "31", mkRat 100 1, "Jul 2025"⟩,
           ⟨"Acme Corp", "Alice", "A001", mkRat 1100 1, "31", mkRat 1505 10, "Aug 2025"⟩]
    ∧ missingMonths [sampleS1, sampleS2, sampleS3NoAcme]
        (dfOthers (allData [sampleS1, sampleS2, sampleS3NoAcme])) "Acme Corp"
        = [sampleS3NoAcme.label]
    ∧ (∀ l : String,
        l ∈ missingMonths [sampleS1, sampleS2, sampleS3NoAcme]
              (dfOthers (allData [sampleS1, sampleS2, sampleS3NoAcme])) "Acme Corp"
          ↔ (l ∈ expectedMonths [sampleS1, sampleS2, sampleS3NoAcme]
              ∧ l ∉ presentMonths
                  (dfOthers (allData [sampleS1, sampleS2, sampleS3NoAcme])) "Acme Corp")) :=
  C5_missing_period_report sampleS1 sampleS2 sampleS3NoAcme "Acme Corp"
    ⟨"Acme Corp", "Alice", "A001", mkRat 1000 1, "31", mkRat 100 1, "Jul 2025"⟩
    ⟨"Acme Corp", "Alice", "A001", mkRat 1100 1, "31", mkRat 1505 10, "Aug 2025"⟩
    (by decide) (by decide) (by decide)
    (by decide) (by decide) (by decide) (by decide) (by decide) (by decide)

/-- C4: period indices follow the order the sources were supplied in — for
an admitted client with exactly one record per source, the suffix-1 columns
(`Fee1`, `Average Daily Balance1`, `Days in Period1`, `Date1`) come from the
record of the first source, suffix-2 from the second, suffix-3 from the
third, whatever the row order inside each source; the row labels carry the
sources' month labels. -/
theorem C4_period_order (s1 s2 s3 : Source) (c : String) (r1 r2 r3 : LongRow)
    (h1 : clientRows (loadedRows s1) c = [r1])
    (h2 : clientRows (loadedRows s2) c = [r2])
    (h3 : clientRows (loadedRows s3) c = [r3])
    (hk2 : rowKey r2 = rowKey r1) (hk3 : rowKey r3 = rowKey r1) :
    wideOf (allData [s1, s2, s3]) (rowKey r1) ∈ reshape (allData [s1, s2, s3])
    ∧ (wideOf (allData [s1, s2, s3]) (rowKey r1)).fee1 = .num r1.fee
    ∧ (wideOf (allData [s1, s2, s3]) (rowKey r1)).adb1 = .num r1.adb
    ∧ (wideOf (allData [s1, s2, s3]) (rowKey r1)).days1 = .str r1.days
    ∧ (wideOf (allData [s1, s2, s3]) (rowKey r1)).date1 = .str r1.date
    ∧ (wideOf (allData [s1, s2, s3]) (rowKey r1)).fee2 = .num r2.fee
    ∧ (wideOf (allData [s1, s2, s3]) (rowKey r1)).date2 = .str r2.date
    ∧ (wideOf (allData [s1, s2, s3]) (rowKey r1)).fee3 = .num r3.fee
    ∧ (wideOf (allData [s1, s2, s3]) (rowKey r1)).date3 = .str r3.date
    ∧ r1.date = s1.label ∧ r2.date = s2.label ∧ r3.date = s3.label := by
  have hall : clientRows (allData [s1, s2, s3]) c = [r1, r2, r3] := by
    rw [allData_triple, clientRows_append, clientRows_append, h1, h2, h3]
    rfl
  have hcount : clientCount (allData [s1, s2, s3]) c = 3 := by
    unfold clientCount
    rw [hall]
    rfl
  have hdf : clientRows (dfExact3 (allData [s1, s2, s3])) c = [r1, r2, r3] := by
    rw [clientRows_dfExact3 _ _ hcount, hall]
  obtain ⟨p1, p2, p3⟩ := pivotCell_three _ _ _ _ _ hdf hk2 hk3
  have hr1df : r1 ∈ dfExact3 (allData [s1, s2, s3]) := by
    have hm : r1 ∈ clientRows (dfExact3 (allData [s1, s2, s3])) c := by rw [hdf]; simp
    exact (mem_clientRows.mp hm).1
  have hr1l : r1 ∈ loadedRows s1 := by
    have hm : r1 ∈ clientRows (loadedRows s1) c := by rw [h1]; simp
    exact (mem_clientRows.mp hm).1
  have hr2l : r2 ∈ loadedRows s2 := by
    have hm : r2 ∈ clientRows (loadedRows s2) c := by rw [h2]; simp
    exact (mem_clientRows.mp hm).1
  have hr3l : r3 ∈ loadedRows s3 := by
    have hm : r3 ∈ clientRows (loadedRows s3) c := by rw [h3]; simp
    exact (mem_clientRows.mp hm).1
  refine ⟨?_, ?_, ?_, ?_, ?_, ?_, ?_, ?_, ?_,
    date_of_mem_loadedRows _ _ hr1l, date_of_mem_loadedRows _ _ hr2l,
    date_of_mem_loadedRows _ _ hr3l⟩
  · rw [reshape_eq_map]
    exact List.mem_map_of_mem _ (List.mem_dedup.mpr (List.mem_map_of_mem _ hr1df))
  all_goals simp [wideOf, mkWideRow, p1, p2, p3, numCellOf, strCellOf]

theorem C4_period_order_witness :
    wideOf (allData [sampleS1, sampleS2, sampleS3])
        (rowKey ⟨"Acme Corp", "Alice", "A001", mkRat 1000 1, "31", mkRat 100 1, "Jul 2025"⟩)
      ∈ reshape (allData [sampleS1, sampleS2, sampleS3])
    ∧ (wideOf (allData [sampleS1, sampleS2, sampleS3])
        (rowKey ⟨"Acme Corp", "Alice", "A001", mkRat 1000 1, "31", mkRat 100 1,
          "Jul 2025"⟩)).fee1
      = .num (⟨"Acme Corp", "Alice", "A001", mkRat 1000 1, "31", mkRat 100 1,
          "Jul 2025"⟩ : LongRow).fee
    ∧ (wideOf (allData [sampleS1, sampleS2, sampleS3])
        (rowKey ⟨"Acme Corp", "Alice", "A001", mkRat 1000 1, "31", mkRat 100 1,
          "Jul 2025"⟩)).adb1
      = .num (⟨"Acme Corp", "Alice", "A001", mkRat 1000 1, "31", mkRat 100 1,
          "Jul 2025"⟩ : LongRow).adb
    ∧ (wideOf (allData [sampleS1, sampleS2, sampleS3])
        (rowKey ⟨"Acme Corp", "Alice", "A001", mkRat 1000 1, "31", mkRat 100 1,
          "Jul 2025"⟩)).days1
      = .str (⟨"Acme Corp", "Alice", "A001", mkRat 1000 1, "31", mkRat 100 1,
          "Jul 2025"⟩ : LongRow).days
    ∧ (wideOf (allData [sampleS1, sampleS2, sampleS3])
        (rowKey ⟨"Acme Corp", "Alice", "A001", mkRat 1000 1, "31", mkRat 100 1,
          "Jul 2025"⟩)).date1
      = .str (⟨"Acme Corp", "Alice", "A001", mkRat 1000 1, "31", mkRat 100 1,
          "Jul 2025"⟩ : LongRow).date
    ∧ (wideOf (allData [sampleS1, sampleS2, sampleS3])
        (rowKey ⟨"Acme Corp", "Alice", "A001", mkRat 1000 1, "31", mkRat 100 1,
          "Jul 2025"⟩)).fee2
      = .num (⟨"Acme Corp", "Alice", "A001", mkRat 1100 1, "31", mkRat 1505 10,
          "Aug 2025"⟩ : LongRow).fee
    ∧ (wideOf (allData [sampleS1, sampleS2, sampleS3])
        (rowKey ⟨"Acme Corp", "Alice", "A001", mkRat 1000 1, "31", mkRat 100 1,
          "Jul 2025"⟩)).date2
      = .str (⟨"Acme Corp", "Alice", "A001", mkRat 1100 1, "31", mkRat 1505 10,
          "Aug 2025"⟩ : LongRow).date
    ∧ (wideOf (allData [sampleS1, sampleS2, sampleS3])
        (rowKey ⟨"Acme Corp", "Alice", "A001", mkRat 1000 1, "31", mkRat 100 1,
          "Jul 2025"⟩)).fee3
      = .num (⟨"Acme Corp", "Alice", "A001", mkRat 1200 1, "30", mkRat 200 1,
          "Sep 2025"⟩ : LongRow).fee
    ∧ (wideOf (allData [sampleS1, sampleS2, sampleS3])
        (rowKey ⟨"Acme Corp", "Alice", "A001", mkRat 1000 1, "31", mkRat 100 1,
          "Jul 2025"⟩)).date3
      = .str (⟨"Acme Corp", "Alice", "A001", mkRat 1200 1, "30", mkRat 200 1,
          "Sep 2025"⟩ : LongRow).date
    ∧ (⟨"Acme Corp", "Alice", "A001", mkRat 1000 1, "31", mkRat 100 1,
          "Jul 2025"⟩ : LongRow).date = sampleS1.label
    ∧ (⟨"Acme Corp", "Alice", "A001", mkRat 1100 1, "31", mkRat 1505 10,
          "Aug 2025"⟩ : LongRow).date = sampleS2.label
    ∧ (⟨"Acme Corp", "Alice", "A001", mkRat 1200 1, "30", mkRat 200 1,
          "Sep 2025"⟩ : LongRow).date = sampleS3.label :=
  C4_period_order sampleS1 sampleS2 sampleS3 "Acme Corp"
    ⟨"Acme Corp", "Alice", "A001", mkRat 1000 1, "31", mkRat 100 1, "Jul 2025"⟩
    ⟨"Acme Corp", "Alice", "A001", mkRat 1100 1, "31", mkRat 1505 10, "Aug 2025"⟩
    ⟨"Acme Corp", "Alice", "A001", mkRat 1200 1, "30", mkRat 200 1, "Sep 2025"⟩
    (by decide) (by decide) (by decide) (by decide) (by decide)

/-- C10: the pivot keys rows on the triple (Client, Advisor, Unique Client
ID): an admitted client whose three records agree on advisor and client id
yields exactly one wide row, while disagreement on the key fields yields at
least two wide rows for that client. -/
theorem C10_pivot_key_triple (data : List LongRow) (c : String) (r1 r2 r3 : LongRow)
    (h : clientRows (dfExact3 data) c = [r1, r2, r3]) :
    ((rowKey r2 = rowKey r1 ∧ rowKey r3 = rowKey r1) →
        (reshape data).filter (fun w => w.client = c) = [wideOf data (rowKey r1)])
    ∧ (rowKey r2 ≠ rowKey r1 →
        2 ≤ ((reshape data).filter (fun w => w.client = c)).length) := by
  have hr1 : r1 ∈ clientRows (dfExact3 data) c := by rw [h]; simp
  have hr2 : r2 ∈ clientRows (dfExact3 data) c := by rw [h]; simp
  have hc1 : r1.client = c := (mem_clientRows.mp hr1).2
  have hc2 : r2.client = c := (mem_clientRows.mp hr2).2
  have hfil : (reshape data).filter (fun w => w.client = c)
      = ((pivotKeys (dfExact3 data)).filter (fun k => k.client = c)).map (wideOf data) := by
    rw [reshape_eq_map, List.filter_map]
    rfl
  have hkmem : ∀ x ∈ (pivotKeys (dfExact3 data)).filter (fun k => k.client = c),
      ∃ r ∈ clientRows (dfExact3 data) c, rowKey r = x := by
    intro x hx
    rcases List.mem_filter.mp hx with ⟨hx1, hx2⟩
    rcases List.mem_map.mp (List.mem_dedup.mp hx1) with ⟨r, hrmem, rfl⟩
    have hrc : r.client = c := by simpa using hx2
    exact ⟨r, mem_clientRows.mpr ⟨hrmem, hrc⟩, rfl⟩
  have hmem1 : rowKey r1 ∈ (pivotKeys (dfExact3 data)).filter (fun k => k.client = c) := by
    apply List.mem_filter.mpr
    refine ⟨List.mem_dedup.mpr (List.mem_map_of_mem _ ((mem_clientRows.mp hr1).1)), ?_⟩
    simpa using hc1
  have hmem2 : rowKey r2 ∈ (pivotKeys (dfExact3 data)).filter (fun k => k.client = c) := by
    apply List.mem_filter.mpr
    refine ⟨List.mem_dedup.mpr (List.mem_map_of_mem _ ((mem_clientRows.mp hr2).1)), ?_⟩
    simpa using hc2
  constructor
  · rintro ⟨hk2, hk3⟩
    rw [hfil]
    have hsingle : (pivotKeys (dfExact3 data)).filter (fun k => k.client = c)
        = [rowKey r1] := by
      apply eq_singleton_of_nodup
      · exact List.Nodup.filter _ (List.nodup_dedup _)
      · exact hmem1
      · intro x hx
        rcases hkmem x hx with ⟨r, hrc, hrk⟩
        rw [h] at hrc
        have hcase : r = r1 ∨ r = r2 ∨ r = r3 := by simpa using hrc
        rcases hcase with rfl | rfl | rfl
        · exact hrk.symm
        · rw [← hrk, hk2]
        · rw [← hrk, hk3]
    rw [hsingle]
    rfl
  · intro hne
    rw [hfil, List.length_map]
    exact two_le_length_of_two_mem hmem2 hmem1 hne

/-- A merged table holding just one admitted client's three records. -/
def tripleData : List LongRow :=
  [⟨"Acme Corp", "Alice", "A001", mkRat 1000 1, "31", mkRat 100 1, "Jul 2025"⟩,
   ⟨"Acme Corp", "Alice", "A001", mkRat 1100 1, "31", mkRat 1505 10, "Aug 2025"⟩,
   ⟨"Acme Corp", "Alice", "A001", mkRat 1200 1, "30", mkRat 200 1, "Sep 2025"⟩]

theorem C10_pivot_key_triple_witness :
    ((rowKey (⟨"Acme Corp", "Alice", "A001", mkRat 1100 1, "31", mkRat 1505 10,
            "Aug 2025"⟩ : LongRow)
        = rowKey (⟨"Acme Corp", "Alice", "A001", mkRat 1000 1, "31", mkRat 100 1,
            "Jul 2025"⟩ : LongRow)
      ∧ rowKey (⟨"Acme Corp", "Alice", "A001", mkRat 1200 1, "30", mkRat 200 1,
            "Sep 2025"⟩ : LongRow)
        = rowKey (⟨"Acme Corp", "Alice", "A001", mkRat 1000 1, "31", mkRat 100 1,
            "Jul 2025"⟩ : LongRow)) →
        (reshape tripleData).filter (fun w => w.client = "Acme Corp")
          = [wideOf tripleData
              (rowKey (⟨"Acme Corp", "Alice", "A001", mkRat 1000 1, "31", mkRat 100 1,
                "Jul 2025"⟩ : LongRow))])
    ∧ (rowKey (⟨"Acme Corp", "Alice", "A001", mkRat 1100 1, "31", mkRat 1505 10,
            "Aug 2025"⟩ : LongRow)
        ≠ rowKey (⟨"Acme Corp", "Alice", "A001", mkRat 1000 1, "31", mkRat 100 1,
            "Jul 2025"⟩ : LongRow) →
        2 ≤ ((reshape tripleData).filter (fun w => w.client = "Acme Corp")).length) :=
  C10_pivot_key_triple tripleData "Acme Corp"
    ⟨"Acme Corp", "Alice", "A001", mkRat 1000 1, "31", mkRat 100 1, "Jul 2025"⟩
    ⟨"Acme Corp", "Alice", "A001", mkRat 1100 1, "31", mkRat 1505 10, "Aug 2025"⟩
    ⟨"Acme Corp", "Alice", "A001", mkRat 1200 1, "30", mkRat 200 1, "Sep 2025"⟩
    (by decide)
